import Mathlib

/-!
Verification of the Finsight ETL pipeline (src/etl_pipeline) against its
specification.  The Python code is shallowly embedded: DataFrames become
lists of row structures, float arithmetic is idealised over ℚ (with an
explicit `PyFloat` type where NaN/Inf behaviour matters), and the
external effects (Azure blob storage, TensorFlow training, the clock)
are modelled as explicit parameters.
-/

namespace Finsight

/-- A raw OHLCV row, as produced by `fetch_stock_data` (main.py):
columns Open, High, Low, Close, Volume.  The date index is irrelevant to
the verified claims and is omitted. -/
structure Row where
  Open : ℚ
  High : ℚ
  Low : ℚ
  Close : ℚ
  Volume : ℚ
deriving DecidableEq, Repr

/-- A processed row (output of `transform_data`): the raw columns plus
`return_pct`, which is NaN (`none`) on the first row. -/
structure ProcRow where
  Open : ℚ
  High : ℚ
  Low : ℚ
  Close : ℚ
  Volume : ℚ
  return_pct : Option ℚ
deriving DecidableEq, Repr

/-- `Series.pct_change` on the Close column (pandas computes
`x[t] / x[t-1] - 1`, with NaN in position 0).  Helper for the tail of the
column: `prev` is the previous close. -/
def pctChangeAux (prev : ℚ) : List ℚ → List (Option ℚ)
  | [] => []
  | c :: rest => some (c / prev - 1) :: pctChangeAux c rest

/-- `df["Close"].pct_change()` : NaN first, then `x[t]/x[t-1] - 1`. -/
def pctChange : List ℚ → List (Option ℚ)
  | [] => []
  | c :: rest => none :: pctChangeAux c rest

/-- `transform_data` (main.py): copies the frame and adds the
`return_pct = Close.pct_change()` column (the index reset does not
change the rows). -/
def transform_data (df : List Row) : List ProcRow :=
  List.zipWith (fun (r : Row) (o : Option ℚ) =>
      ProcRow.mk r.Open r.High r.Low r.Close r.Volume o)
    df (pctChange (df.map Row.Close))

theorem pctChangeAux_length (prev : ℚ) (l : List ℚ) :
    (pctChangeAux prev l).length = l.length := by
  induction l generalizing prev with
  | nil => rfl
  | cons c rest ih => simp [pctChangeAux, ih]

theorem pctChange_length (l : List ℚ) : (pctChange l).length = l.length := by
  cases l with
  | nil => rfl
  | cons c rest => simp [pctChange, pctChangeAux_length]

theorem transform_data_length (df : List Row) :
    (transform_data df).length = df.length := by
  simp [transform_data, List.length_zipWith, pctChange_length]

theorem transform_data_map_return (df : List Row) :
    (transform_data df).map ProcRow.return_pct = pctChange (df.map Row.Close) := by
  have h : ∀ (l1 : List Row) (l2 : List (Option ℚ)), l1.length = l2.length →
      (List.zipWith (fun (r : Row) (o : Option ℚ) =>
        ProcRow.mk r.Open r.High r.Low r.Close r.Volume o) l1 l2).map ProcRow.return_pct = l2 := by
    intro l1
    induction l1 with
    | nil => intro l2 h; cases l2 with
      | nil => rfl
      | cons b t => simp at h
    | cons a t ih => intro l2 h; cases l2 with
      | nil => simp at h
      | cons b t2 =>
        simp only [List.zipWith, List.map]
        rw [ih t2 (by simpa using h)]
  exact h df (pctChange (df.map Row.Close)) (by simp [pctChange_length])

theorem pctChangeAux_get (prev : ℚ) (l : List ℚ) (t : ℕ) (c c' : ℚ)
    (h1 : l[t]? = some c) (h2 : l[t + 1]? = some c') :
    (pctChangeAux prev l)[t + 1]? = some (some (c' / c - 1)) := by
  induction l generalizing prev t with
  | nil => simp at h1
  | cons a rest ih =>
    cases t with
    | zero =>
      simp only [List.getElem?_cons_zero, List.getElem?_cons_succ] at h1 h2
      cases rest with
      | nil => simp at h2
      | cons b r2 =>
        simp only [List.getElem?_cons_zero] at h2
        injection h1 with h1
        injection h2 with h2
        subst h1; subst h2
        simp [pctChangeAux]
    | succ t' =>
      simp only [List.getElem?_cons_succ] at h1 h2
      simpa [pctChangeAux] using ih a t' h1 h2

theorem pctChange_get (l : List ℚ) (t : ℕ) (c c' : ℚ)
    (h1 : l[t]? = some c) (h2 : l[t + 1]? = some c') :
    (pctChange l)[t + 1]? = some (some (c' / c - 1)) := by
  cases l with
  | nil => simp at h1
  | cons a rest =>
    cases t with
    | zero =>
      simp only [List.getElem?_cons_zero, List.getElem?_cons_succ] at h1 h2
      injection h1 with h1
      cases rest with
      | nil => simp at h2
      | cons b r2 =>
        simp only [List.getElem?_cons_zero] at h2
        injection h2 with h2
        subst h1; subst h2
        simp [pctChange, pctChangeAux]
    | succ t' =>
      simp only [List.getElem?_cons_succ] at h1 h2
      simpa [pctChange] using pctChangeAux_get a rest t' c c' h1 h2

/-! ## lstm_predictor.py -/

/-- IEEE-float values as they matter to the claims: either an exact
(idealised) finite value, or one of the non-finite values NaN / +Inf /
-Inf produced by float arithmetic. -/
inductive PyFloat where
  | finite (q : ℚ)
  | nan
  | inf
  | ninf
deriving DecidableEq, Repr

/-- Python truthiness of a float: `bool(x)` is False only for 0.0;
NaN and both infinities are truthy. -/
def PyFloat.truthy : PyFloat → Bool
  | .finite q => decide (q ≠ 0)
  | _ => true

def PyFloat.isFinite : PyFloat → Bool
  | .finite _ => true
  | _ => false

/-- `x * a + b` on a possibly non-finite `x` with finite `a`, `b`
(the affine map applied by `MinMaxScaler.inverse_transform`). -/
def PyFloat.affine (x : PyFloat) (a b : ℚ) : PyFloat :=
  match x with
  | .finite q => .finite (q * a + b)
  | .nan => .nan
  | .inf => if a > 0 then .inf else if a < 0 then .ninf else .nan
  | .ninf => if a > 0 then .ninf else if a < 0 then .inf else .nan

/-- `x > c` for a possibly non-finite float `x` and finite `c`
(NaN comparisons are False). -/
def PyFloat.gtQ (x : PyFloat) (c : ℚ) : Bool :=
  match x with
  | .finite q => decide (q > c)
  | .nan => false
  | .inf => true
  | .ninf => false

/-- `((x - c) / c) * 100` for a possibly non-finite `x` and finite
nonzero `c` (the predicted-percent-change computation). -/
def PyFloat.pctVs (x : PyFloat) (c : ℚ) : PyFloat :=
  match x with
  | .finite q => .finite ((q - c) / c * 100)
  | .nan => .nan
  | .inf => if c > 0 then .inf else if c < 0 then .ninf else .nan
  | .ninf => if c > 0 then .ninf else if c < 0 then .inf else .nan

def listMin : List ℚ → ℚ
  | [] => 0
  | x :: xs => xs.foldl min x

def listMax : List ℚ → ℚ
  | [] => 0
  | x :: xs => xs.foldl max x

/-- `create_dataset` (lstm_predictor.py): for `i` in
`range(len(dataset) - look_back - 1)`, input `dataset[i : i+look_back]`
and target `dataset[i + look_back]`.  A Python `range` over a negative
bound is empty, which natural subtraction reproduces. -/
def create_dataset (dataset : List ℚ) (look_back : ℕ := 60) :
    List (List ℚ) × List ℚ :=
  let idxs := List.range (dataset.length - look_back - 1)
  (idxs.map (fun i => (dataset.drop i).take look_back),
   idxs.map (fun i => dataset.getD (i + look_back) 0))

/-- `data = df["Close"].values` in `train_and_predict`. -/
def closeData (df : List ProcRow) : List ℚ := df.map ProcRow.Close

/-- `scaler.data_min_` after `fit_transform` on the Close column. -/
def closeMin (df : List ProcRow) : ℚ := listMin (closeData df)

/-- The denominator of the MinMax scaling of the Close column: sklearn
uses `data_max - data_min`, substituting 1 when the range is zero. -/
def closeScale (df : List ProcRow) : ℚ :=
  if listMax (closeData df) - listMin (closeData df) = 0 then 1
  else listMax (closeData df) - listMin (closeData df)

/-- `scaled_data = scaler.fit_transform(data)`: each close mapped to
`(x - min) / (max - min)`. -/
def scaledData (df : List ProcRow) : List ℚ :=
  (closeData df).map (fun x => (x - closeMin df) / closeScale df)

/-- `train_and_predict` (lstm_predictor.py).  The TensorFlow model is
the one external, non-deterministic component: `modelPredict` stands
for the trained network's output (the predicted *scaled* value) on the
final 60-day window.  Everything else — the length guard, MinMax
scaling, window construction, the empty-training-set guard and the
inverse transform `x * scale + min` — is embedded from the source. -/
def train_and_predict (modelPredict : List ℚ → PyFloat) (df : List ProcRow) :
    Option PyFloat :=
  if df.length < 100 then none
  else
    let scaled_data := scaledData df
    let X_train := (create_dataset scaled_data 60).1
    if X_train.length = 0 then none
    else
      let last_60_days := scaled_data.drop (scaled_data.length - 60)
      let predicted_scaled := modelPredict last_60_days
      some (predicted_scaled.affine (closeScale df) (closeMin df))

/-- One row of the `lstm_predictions.csv` aggregate. -/
structure PredRow where
  ticker : String
  currentPrice : ℚ
  predictedPrice : PyFloat
  direction : String
  pctChangeCol : PyFloat
  date : String
deriving DecidableEq, Repr

/-- The per-ticker body of the aggregation loop in `run_lstm_pipeline`:
the ticker's rows contributed to the `predictions` list.  The guard is
Python truthiness of `pred_price` (`if pred_price:`): `None` and `0.0`
are falsy, NaN/Inf are truthy.  `today` stands for
`pd.Timestamp.now().strftime("%Y-%m-%d")`. -/
def lstmTickerRows (modelPredict : List ℚ → PyFloat) (today ticker : String)
    (df : List ProcRow) : List PredRow :=
  match train_and_predict modelPredict df with
  | none => []
  | some pred_price =>
    if pred_price.truthy then
      let current_price := (df.map ProcRow.Close).getLastD 0
      let direction := if pred_price.gtQ current_price then "UP" else "DOWN"
      [⟨ticker, current_price, pred_price, direction,
        pred_price.pctVs current_price, today⟩]
    else []

/-- The save step of `run_lstm_pipeline`: `lstm_predictions.csv` is
overwritten with the collected rows only when `predictions` is
non-empty (`if predictions:`); otherwise the blob keeps its prior
content (`none` = the blob does not exist). -/
def save_predictions (rows : List PredRow) (prior : Option (List PredRow)) :
    Option (List PredRow) :=
  if rows.isEmpty then prior else some rows

theorem create_dataset_fst_length (l : List ℚ) (lb : ℕ) :
    (create_dataset l lb).1.length = l.length - lb - 1 := by
  simp [create_dataset]

theorem create_dataset_snd_length (l : List ℚ) (lb : ℕ) :
    (create_dataset l lb).2.length = l.length - lb - 1 := by
  simp [create_dataset]

theorem train_and_predict_of_lt (m : List ℚ → PyFloat) (df : List ProcRow)
    (h : df.length < 100) : train_and_predict m df = none := by
  simp [train_and_predict, h]

theorem scaledData_length (df : List ProcRow) :
    (scaledData df).length = df.length := by
  simp [scaledData, closeData]

theorem train_and_predict_of_ge (m : List ℚ → PyFloat) (df : List ProcRow)
    (h : 100 ≤ df.length) :
    train_and_predict m df =
      some ((m ((scaledData df).drop ((scaledData df).length - 60))).affine
        (closeScale df) (closeMin df)) := by
  have hlen : ¬ df.length < 100 := by omega
  have hX : (create_dataset (scaledData df) 60).1.length = df.length - 61 := by
    rw [create_dataset_fst_length, scaledData_length]; omega
  have hne : ¬ (create_dataset (scaledData df) 60).1.length = 0 := by
    rw [hX]; omega
  simp only [train_and_predict, hlen, if_false, hne]

/-! ## ai_insights.py -/

/-- Two-decimal rounding as produced by Python float formatting on the
idealised value: round half to even at the second decimal. -/
def roundHalfEven (q : ℚ) : ℤ :=
  if q - ⌊q⌋ < 1/2 then ⌊q⌋
  else if q - ⌊q⌋ > 1/2 then ⌊q⌋ + 1
  else if ⌊q⌋ % 2 = 0 then ⌊q⌋ else ⌊q⌋ + 1

/-- Render a rational with exactly two decimal places (`"%.2f"`). -/
def fmt2 (q : ℚ) : String :=
  let n := roundHalfEven (q * 100)
  let s := if n < 0 then "-" else ""
  let m := n.natAbs
  s ++ toString (m / 100) ++ "." ++
    (if m % 100 < 10 then "0" else "") ++ toString (m % 100)

/-- The integer nearest (half to even) to `10000 * Real.sqrt v`, computed
exactly on ℚ: `Nat.sqrt ⌊10^8 v⌋` is `⌊10^4 √v⌋`, and the tie test
`10^4 √v ⋚ k + 1/2` is `4·10^8·v ⋚ (2k+1)^2`. -/
def round4Sqrt (v : ℚ) : ℕ :=
  let k := Nat.sqrt (⌊v * 100000000⌋).toNat
  if (400000000 : ℚ) * v < ((2 * k + 1 : ℕ) : ℚ) ^ 2 then k
  else if (400000000 : ℚ) * v > ((2 * k + 1 : ℕ) : ℚ) ^ 2 then k + 1
  else if k % 2 = 0 then k else k + 1

/-- `"%.2f"` applied to `volatility = std * 100` where `std = √v`;
`"nan"` when the standard deviation is undefined (fewer than two
values). -/
def fmtVol (v : Option ℚ) : String :=
  match v with
  | none => "nan"
  | some v =>
    let n := round4Sqrt v
    toString (n / 100) ++ "." ++
      (if n % 100 < 10 then "0" else "") ++ toString (n % 100)

def pad3 (m : ℕ) : String :=
  if m < 10 then "00" ++ toString m
  else if m < 100 then "0" ++ toString m
  else toString m

/-- Thousands grouping of a natural number (`"{:,}"`). -/
def natComma (n : ℕ) : String :=
  if n < 1000 then toString n
  else natComma (n / 1000) ++ "," ++ pad3 (n % 1000)
termination_by n
decreasing_by exact Nat.div_lt_self (by omega) (by omega)

def intComma (n : ℤ) : String :=
  (if n < 0 then "-" else "") ++ natComma n.natAbs

/-- Python `int(...)`: truncation toward zero. -/
def ratTrunc (q : ℚ) : ℤ := if 0 ≤ q then ⌊q⌋ else ⌈q⌉

/-- Arithmetic mean (`Series.mean`). -/
def mean (l : List ℚ) : ℚ := l.sum / l.length

/-- The square of `Series.std` (sample standard deviation, `ddof=1`):
`none` is the NaN returned on fewer than two values.  The standard
deviation itself is `√` of this; the square is kept because it is the
exact rational the comparisons and rendering are derived from. -/
def sampleVar (l : List ℚ) : Option ℚ :=
  if l.length < 2 then none
  else some ((l.map (fun x => (x - mean l) ^ 2)).sum / ((l.length : ℚ) - 1))

/-- The non-null values of the `return_pct` column (`Series.std` skips
NaN). -/
def returnValues (df : List ProcRow) : List ℚ :=
  df.filterMap ProcRow.return_pct

/-- `generate_local_insight` (ai_insights.py), the template fallback
path.  `volatility = std * 100 > 2.0` is decided by the equivalent
exact test `variance > 1/2500` (std = √variance ≥ 0), and is False when
the std is NaN. -/
def generate_local_insight (df : List ProcRow) (ticker : String) : String :=
  if df.isEmpty then ticker ++ ": No data available for insight."
  else
    let closes := df.map ProcRow.Close
    let latest_close := closes.getLastD 0
    let prev_close := if df.length > 1 then closes.getD (df.length - 2) 0
                      else latest_close
    let daily_return := (latest_close - prev_close) / prev_close * 100
    let varRet := sampleVar (returnValues df)
    let avg_volume := mean (df.map ProcRow.Volume)
    let trend := if daily_return > 0 then "bullish" else "bearish"
    let vol_desc := match varRet with
      | none => "stable"
      | some v => if v > 1/2500 then "high" else "stable"
    ticker ++ " closed at $" ++ fmt2 latest_close ++ ", showing a " ++ trend ++
      " move of " ++ fmt2 daily_return ++ "%. Volatility remains " ++ vol_desc ++
      " (" ++ fmtVol varRet ++ "%), with an average volume of " ++
      intComma (ratTrunc avg_volume) ++ " shares. Market sentiment appears " ++
      trend ++ " based on recent price action."

/-- One row of the `ai_insights.csv` aggregate. -/
structure InsightRow where
  ticker : String
  insight : String
  date : String
deriving DecidableEq, Repr

/-- The per-ticker body of the loop in `run_ai_pipeline`, local-fallback
mode (no completion-service client).  `env` is the blob store: `none`
means `{ticker}_processed.csv` does not exist (skip with a warning);
otherwise the parsed frame.  `today` stands for
`pd.Timestamp.now().strftime("%Y-%m-%d")`. -/
def aiTickerRows (env : String → Option (List ProcRow)) (today ticker : String) :
    List InsightRow :=
  match env ticker with
  | none => []
  | some df => [⟨ticker, generate_local_insight df ticker, today⟩]

/-- The loop of `run_ai_pipeline` over the configured tickers. -/
def run_ai_pipeline_rows (env : String → Option (List ProcRow)) (today : String)
    (tickers : List String) : List InsightRow :=
  tickers.flatMap (aiTickerRows env today)

/-- The save step of `run_ai_pipeline`: `ai_insights.csv` is overwritten
with the collected rows only when `insights` is non-empty
(`if insights:`); otherwise only a warning is logged and the blob keeps
its prior content (`none` = the blob does not exist). -/
def save_insights (rows : List InsightRow) (prior : Option (List InsightRow)) :
    Option (List InsightRow) :=
  if rows.isEmpty then prior else some rows

/-! ## news_scraper.py -/

/-- The sentiment label assigned to a headline with the given TextBlob
polarity (`fetch_and_analyze_news`). -/
def sentiment_label (polarity : ℚ) : String :=
  if polarity > 1/10 then "POSITIVE"
  else if polarity < -1/10 then "NEGATIVE"
  else "NEUTRAL"

/-! ## main.py : the fetch–transform loop -/

/-- Per-ticker outcome of one iteration of the loop in `main`:
successful processing, an empty fetch (`df_raw.empty`, `continue`), or
an exception somewhere in the loop body.  (`fetch_stock_data` catches
its own exceptions and returns an empty frame, so a raising ticker
raises from a later step of the body; since `time.sleep` is the body's
last statement, no raising iteration reaches it, wherever the raise
occurs.) -/
inductive TickOutcome where
  | ok
  | emptyFetch
  | raises
deriving DecidableEq, Repr

/-- Observable events of the loop. -/
inductive Ev where
  | fetched (t : String)
  | uploadedRaw (t : String)
  | uploadedProc (t : String)
  | slept (t : String)
  | loggedError (t : String)
deriving DecidableEq, Repr

def evTicker : Ev → String
  | .fetched t => t
  | .uploadedRaw t => t
  | .uploadedProc t => t
  | .slept t => t
  | .loggedError t => t

/-- The `try` body of one loop iteration: either its event list, or the
exception it lets escape. -/
def tickerBody (env : String → TickOutcome) (t : String) :
    Except String (List Ev) :=
  match env t with
  | .raises => .error t
  | .emptyFetch => .ok [.fetched t]
  | .ok => .ok [.fetched t, .uploadedRaw t, .uploadedProc t, .slept t]

/-- The loop of `main` with its `try`/`except`: a body exception is
caught, `logging.error` runs, and the loop moves to the next ticker. -/
def mainLoop (env : String → TickOutcome) : List String → List Ev
  | [] => []
  | t :: rest =>
    (match tickerBody env t with
     | .ok evs => evs
     | .error _ => [.loggedError t]) ++ mainLoop env rest

/-! ## Claim theorems -/

/-- C9: for every headline polarity, the sentiment label is POSITIVE iff
polarity > 0.1, NEGATIVE iff polarity < -0.1, and NEUTRAL otherwise;
in particular polarity exactly 0.1 or exactly -0.1 yields NEUTRAL, and
0.1001 yields POSITIVE. -/
theorem C9_sentiment_label_boundaries :
    (∀ s : ℚ,
      (sentiment_label s = "POSITIVE" ↔ s > 1/10) ∧
      (sentiment_label s = "NEGATIVE" ↔ s < -1/10) ∧
      (sentiment_label s = "NEUTRAL" ↔ (-1/10 ≤ s ∧ s ≤ 1/10))) ∧
    sentiment_label (1/10) = "NEUTRAL" ∧
    sentiment_label (-1/10) = "NEUTRAL" ∧
    sentiment_label (1001/10000) = "POSITIVE" := by
  refine ⟨?_, by norm_num [sentiment_label], by norm_num [sentiment_label],
    by norm_num [sentiment_label]⟩
  intro s
  unfold sentiment_label
  split_ifs with h1 h2
  · refine ⟨⟨fun _ => h1, fun _ => rfl⟩,
      ⟨fun h => absurd h (by decide), fun h => absurd h (by linarith)⟩,
      ⟨fun h => absurd h (by decide), fun h => absurd h1 (by push_neg; exact h.2)⟩⟩
  · refine ⟨⟨fun h => absurd h (by decide), fun h => absurd h h1⟩,
      ⟨fun _ => h2, fun _ => rfl⟩,
      ⟨fun h => absurd h (by decide), fun h => absurd h2 (by push_neg; exact h.1)⟩⟩
  · push_neg at h1 h2
    exact ⟨⟨fun h => absurd h (by decide), fun h => absurd h (by push_neg; exact h1)⟩,
      ⟨fun h => absurd h (by decide), fun h => absurd h (by push_neg; exact h2)⟩,
      ⟨fun _ => ⟨h2, h1⟩, fun _ => rfl⟩⟩

/-- C10: a ticker's record enters the predictions aggregate iff the
value returned by `train_and_predict` is truthy as a Python number;
in particular a predicted price of exactly 0.0 is silently omitted,
exactly as if the stage had returned absent. -/
theorem C10_truthiness_gates_aggregate (m : List ℚ → PyFloat)
    (today ticker : String) (df : List ProcRow) :
    (lstmTickerRows m today ticker df ≠ [] ↔
       ∃ v, train_and_predict m df = some v ∧ v.truthy = true) ∧
    (train_and_predict m df = some (PyFloat.finite 0) →
       lstmTickerRows m today ticker df = []) := by
  constructor
  · unfold lstmTickerRows
    cases h : train_and_predict m df with
    | none => simp
    | some v =>
      by_cases ht : v.truthy = true
      · simp [ht]
      · simp [ht]
  · intro h
    unfold lstmTickerRows
    rw [h]
    simp [PyFloat.truthy]

/-- C2: a processed series with fewer than 100 rows makes
`train_and_predict` return absent; a series of 100 or more rows passes
the length check, its training set is provably non-empty, and the stage
returns a prediction; absent happens exactly on a short series or an
empty training set. -/
theorem C2_short_series_absent (m : List ℚ → PyFloat) (df : List ProcRow) :
    (df.length < 100 → train_and_predict m df = none) ∧
    (100 ≤ df.length →
       (create_dataset (scaledData df) 60).1.length ≠ 0 ∧
       ∃ v, train_and_predict m df = some v) ∧
    (train_and_predict m df = none ↔
       df.length < 100 ∨ (create_dataset (scaledData df) 60).1.length = 0) := by
  refine ⟨train_and_predict_of_lt m df, ?_, ?_⟩
  · intro h
    refine ⟨?_, _, train_and_predict_of_ge m df h⟩
    rw [create_dataset_fst_length, scaledData_length]
    omega
  · by_cases h : df.length < 100
    · simp [train_and_predict_of_lt m df h, h]
    · push_neg at h
      rw [train_and_predict_of_ge m df h]
      have : (create_dataset (scaledData df) 60).1.length ≠ 0 := by
        rw [create_dataset_fst_length, scaledData_length]; omega
      simp [this]
      omega

/-- C2 witness: a 99-row series yields absent; a 100-row series yields a
prediction. -/
theorem C2_witness :
    train_and_predict (fun _ => PyFloat.finite 1)
        (List.replicate 99 (ProcRow.mk 1 1 1 1 1 none)) = none ∧
    ∃ v, train_and_predict (fun _ => PyFloat.finite 1)
        (List.replicate 100 (ProcRow.mk 1 1 1 1 1 none)) = some v :=
  ⟨(C2_short_series_absent _ _).1 (by simp only [List.length_replicate]; omega),
   ((C2_short_series_absent _ _).2.1 (by simp only [List.length_replicate]; omega)).2⟩

theorem foldl_min_replicate (k : ℕ) (x : ℚ) :
    List.foldl min x (List.replicate k x) = x := by
  induction k with
  | zero => rfl
  | succ k ih => simpa [List.replicate_succ, min_self] using ih

theorem foldl_max_replicate (k : ℕ) (x : ℚ) :
    List.foldl max x (List.replicate k x) = x := by
  induction k with
  | zero => rfl
  | succ k ih => simpa [List.replicate_succ, max_self] using ih

theorem listMin_replicate (n : ℕ) (hn : n ≠ 0) (c : ℚ) :
    listMin (List.replicate n c) = c := by
  cases n with
  | zero => exact absurd rfl hn
  | succ m =>
    simp only [List.replicate_succ, listMin]
    exact foldl_min_replicate m c

theorem listMax_replicate (n : ℕ) (hn : n ≠ 0) (c : ℚ) :
    listMax (List.replicate n c) = c := by
  cases n with
  | zero => exact absurd rfl hn
  | succ m =>
    simp only [List.replicate_succ, listMax]
    exact foldl_max_replicate m c

theorem getLastD_replicate_succ (m : ℕ) (c d : ℚ) :
    (List.replicate (m + 1) c).getLastD d = c := by
  induction m generalizing d with
  | zero => rfl
  | succ k ih =>
    rw [List.replicate_succ, List.getLastD_cons]
    exact ih c

/-- A 100-row constant processed series, used as a concrete input for
the prediction-stage claims. -/
def constSeries100 : List ProcRow := List.replicate 100 (ProcRow.mk 1 1 1 1 1 none)

theorem closeData_const : closeData constSeries100 = List.replicate 100 1 := by
  simp [closeData, constSeries100, List.map_replicate]

theorem closeMin_const : closeMin constSeries100 = 1 := by
  rw [closeMin, closeData_const]
  exact listMin_replicate 100 (by omega) 1

theorem closeScale_const : closeScale constSeries100 = 1 := by
  rw [closeScale, closeData_const, listMax_replicate 100 (by omega) 1,
    listMin_replicate 100 (by omega) 1]
  norm_num

/-- C1: for every non-empty OHLCV series, `transform_data` preserves the
row count, `return_pct` is null on the first row, and on every later row
`t+1` it equals `(Close[t+1] - Close[t]) / Close[t]`. -/
theorem C1_transform_return_pct (df : List Row) (hne : df ≠ [])
    (hnz : ∀ r ∈ df, r.Close ≠ 0) :
    (transform_data df).length = df.length ∧
    ((transform_data df).map ProcRow.return_pct)[0]? = some none ∧
    ∀ t c c', (df.map Row.Close)[t]? = some c →
      (df.map Row.Close)[t + 1]? = some c' →
      ((transform_data df).map ProcRow.return_pct)[t + 1]? =
        some (some ((c' - c) / c)) := by
  refine ⟨transform_data_length df, ?_, ?_⟩
  · rw [transform_data_map_return]
    cases df with
    | nil => exact absurd rfl hne
    | cons r rest => simp [pctChange]
  · intro t c c' h1 h2
    rw [transform_data_map_return]
    have hc : c ≠ 0 := by
      have hmem : c ∈ df.map Row.Close := by
        obtain ⟨hlt, heq⟩ := List.getElem?_eq_some_iff.mp h1
        exact heq ▸ List.getElem_mem hlt
      obtain ⟨r, hr, hrc⟩ := List.mem_map.mp hmem
      exact hrc ▸ hnz r hr
    rw [pctChange_get _ t c c' h1 h2]
    have hdiv : c' / c - 1 = (c' - c) / c := by field_simp
    rw [hdiv]

/-- C1 witness: on the two-row series with closes 2 and 3, the second
row's `return_pct` is `(3 - 2) / 2`. -/
theorem C1_witness :
    (transform_data [Row.mk 1 1 1 2 1, Row.mk 1 1 1 3 1]).length = 2 ∧
    ((transform_data [Row.mk 1 1 1 2 1, Row.mk 1 1 1 3 1]).map
        ProcRow.return_pct)[0 + 1]? = some (some ((3 - 2) / 2)) := by
  have h := C1_transform_return_pct [Row.mk 1 1 1 2 1, Row.mk 1 1 1 3 1]
    (by simp)
    (by intro r hr
        simp only [List.mem_cons, List.not_mem_nil, or_false] at hr
        rcases hr with rfl | rfl <;> norm_num)
  exact ⟨h.1.trans rfl, h.2.2 0 2 3 rfl rfl⟩

/-- C3: for a series of length L, `create_dataset` with lookback 60
produces exactly `max 0 (L - 60 - 1)` examples; example `i` has input
equal to the 60-term slice starting at `i` and target `scaled[i+60]`. -/
theorem C3_create_dataset_windows (l : List ℚ) :
    ((create_dataset l 60).1.length : ℤ) = max 0 ((l.length : ℤ) - 60 - 1) ∧
    (create_dataset l 60).2.length = (create_dataset l 60).1.length ∧
    (∀ i w, (create_dataset l 60).1[i]? = some w →
       w.length = 60 ∧ ∀ j, j < 60 → w[j]? = l[i + j]?) ∧
    (∀ i, i < (create_dataset l 60).1.length →
       (create_dataset l 60).2[i]? = l[i + 60]?) := by
  refine ⟨?_, ?_, ?_, ?_⟩
  · rw [create_dataset_fst_length]
    omega
  · rw [create_dataset_fst_length, create_dataset_snd_length]
  · intro i w hw
    simp only [create_dataset, List.getElem?_map] at hw
    by_cases hi : i < l.length - 60 - 1
    · rw [List.getElem?_range hi] at hw
      simp only [Option.map_some'] at hw
      injection hw with hw
      subst hw
      constructor
      · simp only [List.length_take, List.length_drop]
        omega
      · intro j hj
        rw [List.getElem?_take_of_lt hj, List.getElem?_drop]
    · rw [List.getElem?_eq_none (by simpa using Nat.le_of_not_lt hi)] at hw
      simp at hw
  · intro i hi
    rw [create_dataset_fst_length] at hi
    have hlt : i + 60 < l.length := by omega
    simp only [create_dataset, List.getElem?_map, List.getElem?_range hi,
      Option.map_some']
    rw [List.getD_eq_getElem?_getD, List.getElem?_eq_getElem hlt]
    rfl

/-- Concrete 62-term series for the C3 witness. -/
def sampleSeries62 : List ℚ := List.map (fun (n : ℕ) => (n : ℚ)) (List.range 62)

/-- Its single 60-term training window. -/
def sampleWindow60 : List ℚ := List.map (fun (n : ℕ) => (n : ℚ)) (List.range 60)

/-- C3 witness: the 62-term series yields one example; its window has 60
terms matching the series positionally, and its target is term 60. -/
theorem C3_witness :
    sampleWindow60.length = 60 ∧
    sampleWindow60[5]? = sampleSeries62[0 + 5]? ∧
    (create_dataset sampleSeries62 60).2[0]? = sampleSeries62[0 + 60]? := by
  have h := C3_create_dataset_windows sampleSeries62
  have hw : (create_dataset sampleSeries62 60).1[0]? = some sampleWindow60 := rfl
  exact ⟨(h.2.2.1 0 sampleWindow60 hw).1,
    (h.2.2.1 0 sampleWindow60 hw).2 5 (by omega),
    h.2.2.2 0 (by
      have hlen : sampleSeries62.length = 62 := by
        rw [sampleSeries62, List.length_map, List.length_range]
      rw [create_dataset_fst_length, hlen]
      omega)⟩

/-- C4 counterexample: a run whose model output is NaN.  The claim says
a non-finite inverse-scaled prediction is treated as a stage failure and
the ticker is skipped; in fact `train_and_predict` returns NaN, NaN is
truthy under `if pred_price:`, and the ticker's row IS appended to the
aggregate. -/
theorem C4_counterexample :
    train_and_predict (fun _ => PyFloat.nan) constSeries100 = some PyFloat.nan ∧
    lstmTickerRows (fun _ => PyFloat.nan) "2026-10-12" "AAPL" constSeries100 =
      [PredRow.mk "AAPL" 1 PyFloat.nan "DOWN" PyFloat.nan "2026-10-12"] := by
  have hlen : (100 : ℕ) ≤ constSeries100.length := by
    simp [constSeries100]
  have h1 : train_and_predict (fun _ => PyFloat.nan) constSeries100 =
      some PyFloat.nan := by
    rw [train_and_predict_of_ge _ _ hlen]
    rfl
  have hcp : (constSeries100.map ProcRow.Close).getLastD 0 = 1 := by
    rw [show constSeries100.map ProcRow.Close = closeData constSeries100 from rfl,
      closeData_const]
    exact getLastD_replicate_succ 99 1 0
  refine ⟨h1, ?_⟩
  unfold lstmTickerRows
  rw [h1, hcp]
  rfl

/-- C4 (amended): the stage performs no finiteness check: whenever
`train_and_predict` returns a non-finite value (NaN or ±Inf), the value
is truthy, so the ticker's row is appended to the aggregate — with the
non-finite price and percent-change carried into the row — rather than
the ticker being skipped. -/
theorem C4_nonfinite_prediction_appended (m : List ℚ → PyFloat)
    (today ticker : String) (df : List ProcRow) (v : PyFloat)
    (hv : train_and_predict m df = some v) (hnf : v.isFinite = false) :
    lstmTickerRows m today ticker df =
      [PredRow.mk ticker ((df.map ProcRow.Close).getLastD 0) v
        (if v.gtQ ((df.map ProcRow.Close).getLastD 0) then "UP" else "DOWN")
        (v.pctVs ((df.map ProcRow.Close).getLastD 0)) today] := by
  have ht : v.truthy = true := by
    cases v <;> simp_all [PyFloat.isFinite, PyFloat.truthy]
  unfold lstmTickerRows
  rw [hv]
  simp [ht]

/-- C4 witness: the amended statement applied to the NaN run. -/
theorem C4_witness :
    lstmTickerRows (fun _ => PyFloat.nan) "2026-10-12" "TSLA" constSeries100 =
      [PredRow.mk "TSLA" ((constSeries100.map ProcRow.Close).getLastD 0)
        PyFloat.nan
        (if PyFloat.nan.gtQ ((constSeries100.map ProcRow.Close).getLastD 0)
         then "UP" else "DOWN")
        (PyFloat.nan.pctVs ((constSeries100.map ProcRow.Close).getLastD 0))
        "2026-10-12"] :=
  C4_nonfinite_prediction_appended _ _ _ _ PyFloat.nan
    (by rw [train_and_predict_of_ge _ _ (by simp [constSeries100])]; rfl) rfl

/-- C10 witness: a run whose inverse-scaled prediction is exactly 0.0 is
omitted from the aggregate. -/
theorem C10_witness :
    lstmTickerRows (fun _ => PyFloat.finite (-1)) "2026-10-12" "MSFT"
      constSeries100 = [] :=
  (C10_truthiness_gates_aggregate _ _ _ _).2 (by
    rw [train_and_predict_of_ge _ _ (by simp [constSeries100])]
    rw [show ((fun _ : List ℚ => PyFloat.finite (-1))
        ((scaledData constSeries100).drop
          ((scaledData constSeries100).length - 60))).affine
        (closeScale constSeries100) (closeMin constSeries100) =
        PyFloat.finite (-1 * closeScale constSeries100 + closeMin constSeries100)
      from rfl]
    rw [closeScale_const, closeMin_const]
    norm_num)

/-- C5 counterexample: an existing but zero-row processed artifact.  The
claim says such a ticker is skipped; in fact `generate_local_insight`
returns the "No data available" message and the ticker DOES contribute a
row to the aggregate. -/
theorem C5_counterexample :
    aiTickerRows (fun _ => some []) "2026-10-12" "AAPL" =
      [InsightRow.mk "AAPL" "AAPL: No data available for insight."
        "2026-10-12"] ∧
    aiTickerRows (fun _ => some []) "2026-10-12" "AAPL" ≠ [] := by
  exact ⟨rfl, by simp [aiTickerRows]⟩

/-- C5 (amended): on the template-fallback path, a ticker is skipped iff
its processed blob does not exist; every existing artifact — zero rows
included — contributes exactly one row, and its insight text is never
empty. -/
theorem C5_existing_artifact_contributes (env : String → Option (List ProcRow))
    (today ticker : String) :
    (env ticker = none → aiTickerRows env today ticker = []) ∧
    (∀ df, env ticker = some df →
       aiTickerRows env today ticker =
         [InsightRow.mk ticker (generate_local_insight df ticker) today] ∧
       0 < (generate_local_insight df ticker).length) := by
  constructor
  · intro h
    unfold aiTickerRows
    rw [h]
  · intro df h
    refine ⟨by unfold aiTickerRows; rw [h], ?_⟩
    unfold generate_local_insight
    by_cases hd : df.isEmpty
    · simp only [hd, if_true]
      rw [String.length_append]
      have hlit : (": No data available for insight.").length = 32 := rfl
      omega
    · simp only [hd, Bool.false_eq_true, if_false]
      simp only [String.length_append]
      have hlit : (" closed at $").length = 12 := rfl
      omega

/-- An environment for the C5 witness: only AAPL's artifact exists. -/
def env5 : String → Option (List ProcRow) :=
  fun t => if t = "AAPL" then some [ProcRow.mk 1 1 1 2 1 none] else none

/-- C5 witness: a missing blob is skipped; an existing one-row artifact
contributes a row with non-empty text. -/
theorem C5_witness :
    aiTickerRows env5 "2026-10-12" "MSFT" = [] ∧
    aiTickerRows env5 "2026-10-12" "AAPL" =
      [InsightRow.mk "AAPL"
        (generate_local_insight [ProcRow.mk 1 1 1 2 1 none] "AAPL")
        "2026-10-12"] ∧
    0 < (generate_local_insight [ProcRow.mk 1 1 1 2 1 none] "AAPL").length :=
  ⟨(C5_existing_artifact_contributes env5 "2026-10-12" "MSFT").1 rfl,
   ((C5_existing_artifact_contributes env5 "2026-10-12" "AAPL").2
     [ProcRow.mk 1 1 1 2 1 none] rfl).1,
   ((C5_existing_artifact_contributes env5 "2026-10-12" "AAPL").2
     [ProcRow.mk 1 1 1 2 1 none] rfl).2⟩

/-- C6 counterexample: a zero-row run.  The claim says every run
overwrites the aggregate wholesale, including zero-row runs; in fact a
zero-row run skips the upload and the prior artifact content survives. -/
theorem C6_counterexample :
    save_insights [] (some [InsightRow.mk "AAPL" "text" "2026-10-11"]) =
      some [InsightRow.mk "AAPL" "text" "2026-10-11"] ∧
    save_insights [] (some [InsightRow.mk "AAPL" "text" "2026-10-11"]) ≠
      some [] ∧
    save_predictions []
      (some [PredRow.mk "AAPL" 1 (PyFloat.finite 2) "UP"
        (PyFloat.finite 100) "2026-10-11"]) ≠ some [] := by
  refine ⟨rfl, by simp [save_insights], by simp [save_predictions]⟩

/-- C6 (amended): a run producing at least one row overwrites the
aggregate wholesale with exactly that run's rows; a run producing zero
rows skips the upload, leaving any prior artifact in place.  This holds
for both `ai_insights.csv` and `lstm_predictions.csv`. -/
theorem C6_overwrite_only_when_nonempty (iRows : List InsightRow)
    (pRows : List PredRow) (iPrior : Option (List InsightRow))
    (pPrior : Option (List PredRow)) :
    (iRows ≠ [] → save_insights iRows iPrior = some iRows) ∧
    (iRows = [] → save_insights iRows iPrior = iPrior) ∧
    (pRows ≠ [] → save_predictions pRows pPrior = some pRows) ∧
    (pRows = [] → save_predictions pRows pPrior = pPrior) := by
  refine ⟨?_, ?_, ?_, ?_⟩ <;>
    intro h <;>
    simp [save_insights, save_predictions, h]

/-- C6 witness: a one-row insight run overwrites; an empty prediction
run keeps the prior artifact. -/
theorem C6_witness :
    save_insights [InsightRow.mk "AAPL" "t" "2026-10-12"] none =
      some [InsightRow.mk "AAPL" "t" "2026-10-12"] ∧
    save_predictions [] (some []) = some [] :=
  ⟨(C6_overwrite_only_when_nonempty [InsightRow.mk "AAPL" "t" "2026-10-12"]
      [] none (some [])).1 (by simp),
   (C6_overwrite_only_when_nonempty [InsightRow.mk "AAPL" "t" "2026-10-12"]
      [] none (some [])).2.2.2 rfl⟩

theorem mainLoop_cons (env : String → TickOutcome) (t : String)
    (rest : List String) :
    mainLoop env (t :: rest) =
      (match tickerBody env t with
       | .ok evs => evs
       | .error _ => [.loggedError t]) ++ mainLoop env rest := rfl

theorem slept_mem_mainLoop (env : String → TickOutcome) (ts : List String)
    (t : String) :
    Ev.slept t ∈ mainLoop env ts ↔ env t = TickOutcome.ok ∧ t ∈ ts := by
  induction ts with
  | nil => simp [mainLoop]
  | cons a rest ih =>
    rw [mainLoop_cons]
    cases h : env a with
    | ok =>
      simp only [tickerBody, h, List.mem_append, List.mem_cons,
        List.not_mem_nil, or_false, ih]
      constructor
      · rintro ((h1 | h1 | h1 | h1) | ⟨h1, h2⟩)
        · exact Ev.noConfusion h1
        · exact Ev.noConfusion h1
        · exact Ev.noConfusion h1
        · injection h1 with h1; subst h1; exact ⟨h, Or.inl rfl⟩
        · exact ⟨h1, Or.inr h2⟩
      · rintro ⟨h1, rfl | h2⟩
        · exact Or.inl (Or.inr (Or.inr (Or.inr rfl)))
        · exact Or.inr ⟨h1, h2⟩
    | emptyFetch =>
      simp only [tickerBody, h, List.mem_append, List.mem_cons,
        List.not_mem_nil, or_false, ih]
      constructor
      · rintro (h1 | ⟨h1, h2⟩)
        · exact Ev.noConfusion h1
        · exact ⟨h1, Or.inr h2⟩
      · rintro ⟨h1, rfl | h2⟩
        · exact TickOutcome.noConfusion (h.symm.trans h1)
        · exact Or.inr ⟨h1, h2⟩
    | raises =>
      simp only [tickerBody, h, List.mem_append, List.mem_cons,
        List.not_mem_nil, or_false, ih]
      constructor
      · rintro (h1 | ⟨h1, h2⟩)
        · exact Ev.noConfusion h1
        · exact ⟨h1, Or.inr h2⟩
      · rintro ⟨h1, rfl | h2⟩
        · exact TickOutcome.noConfusion (h.symm.trans h1)
        · exact Or.inr ⟨h1, h2⟩

theorem mem_mainLoop_ticker (env : String → TickOutcome) (ts : List String) :
    ∀ t ∈ ts, t ∈ (mainLoop env ts).map evTicker := by
  induction ts with
  | nil => simp
  | cons a rest ih =>
    intro t ht
    rw [mainLoop_cons]
    rcases List.mem_cons.mp ht with rfl | ht'
    · cases h : env t <;>
        simp [tickerBody, h, evTicker, List.map_append]
    · simp only [List.map_append, List.mem_append]
      exact Or.inr (ih t ht')

theorem loggedError_mem_mainLoop (env : String → TickOutcome)
    (ts : List String) :
    ∀ t ∈ ts, env t = TickOutcome.raises →
      Ev.loggedError t ∈ mainLoop env ts := by
  induction ts with
  | nil => simp
  | cons a rest ih =>
    intro t ht hr
    rw [mainLoop_cons]
    rcases List.mem_cons.mp ht with rfl | ht'
    · rw [tickerBody, hr]
      simp
    · simp only [List.mem_append]
      exact Or.inr (ih t ht' hr)

/-- C7 counterexample: a run where AAPL raises and MSFT succeeds.  The
exception is caught, logged, and the loop continues — but no delay is
inserted between the consecutive tickers AAPL and MSFT, contradicting
the claim's conjunct that a fixed delay separates consecutive tickers. -/
theorem C7_counterexample :
    mainLoop (fun t => if t = "AAPL" then TickOutcome.raises
        else TickOutcome.ok) ["AAPL", "MSFT"] =
      [Ev.loggedError "AAPL", Ev.fetched "MSFT", Ev.uploadedRaw "MSFT",
       Ev.uploadedProc "MSFT", Ev.slept "MSFT"] ∧
    Ev.slept "AAPL" ∉
      mainLoop (fun t => if t = "AAPL" then TickOutcome.raises
        else TickOutcome.ok) ["AAPL", "MSFT"] := by
  exact ⟨rfl, by decide⟩

/-- C7 (amended): every exception in the loop body is caught and logged
and the loop reaches every configured ticker; the fixed 15-second delay
runs after each successfully processed ticker, and after those only — a
ticker skipped for an empty fetch or one that raised is not followed by
the delay. -/
theorem C7_loop_policy (env : String → TickOutcome) (ts : List String) :
    (∀ t ∈ ts, t ∈ (mainLoop env ts).map evTicker) ∧
    (∀ t ∈ ts, env t = TickOutcome.raises →
       Ev.loggedError t ∈ mainLoop env ts) ∧
    (∀ t, Ev.slept t ∈ mainLoop env ts ↔
       env t = TickOutcome.ok ∧ t ∈ ts) :=
  ⟨mem_mainLoop_ticker env ts, loggedError_mem_mainLoop env ts,
   fun t => slept_mem_mainLoop env ts t⟩

/-- C7 witness: the amended statement applied to the AAPL-raises run. -/
theorem C7_witness :
    "AAPL" ∈ (mainLoop (fun t => if t = "AAPL" then TickOutcome.raises
        else TickOutcome.ok) ["AAPL", "MSFT"]).map evTicker ∧
    Ev.loggedError "AAPL" ∈
      mainLoop (fun t => if t = "AAPL" then TickOutcome.raises
        else TickOutcome.ok) ["AAPL", "MSFT"] ∧
    (Ev.slept "MSFT" ∈
        mainLoop (fun t => if t = "AAPL" then TickOutcome.raises
          else TickOutcome.ok) ["AAPL", "MSFT"] ↔
      (if ("MSFT" : String) = "AAPL" then TickOutcome.raises
        else TickOutcome.ok) = TickOutcome.ok ∧
      ("MSFT" : String) ∈ ["AAPL", "MSFT"]) :=
  ⟨(C7_loop_policy _ _).1 "AAPL" (by simp),
   (C7_loop_policy _ _).2.1 "AAPL" (by simp) (by simp),
   (C7_loop_policy _ _).2.2 "MSFT"⟩

/-- Spec-side value (for refinement comparison with the embedding): the
latest close is the last entry of the Close column. -/
def specLatestClose (df : List ProcRow) : ℚ :=
  (df.map ProcRow.Close).getD (df.length - 1) 0

/-- Spec-side value: the close before the latest one. -/
def specPrevClose (df : List ProcRow) : ℚ :=
  (df.map ProcRow.Close).getD (df.length - 2) 0

/-- Spec-side value: daily return percent from the last two closes. -/
def specDailyReturn (df : List ProcRow) : ℚ :=
  (specLatestClose df - specPrevClose df) / specPrevClose df * 100

/-- Spec-side value: the sample variance of the non-null `return_pct`
values (the spec's volatility is its square root, times 100). -/
def specVariance (df : List ProcRow) : ℚ :=
  ((returnValues df).map (fun x => (x - mean (returnValues df)) ^ 2)).sum /
    (((returnValues df).length : ℚ) - 1)

/-- C8: on a processed series with at least two rows and at least two
non-null returns, the fallback insight computes the daily return from
the last two closes, its variance statistic is the sample variance of
`return_pct` (so the volatility is its square root times 100, and the
descriptor is "high" exactly when that volatility exceeds 2.0), and the
sentence is the fixed template interpolating those deterministic
components. -/
theorem C8_local_insight_template (df : List ProcRow) (ticker : String)
    (h2 : 2 ≤ df.length) (hvn : 2 ≤ (returnValues df).length) :
    (df.map ProcRow.Close)[df.length - 1]? = some (specLatestClose df) ∧
    (df.map ProcRow.Close)[df.length - 2]? = some (specPrevClose df) ∧
    sampleVar (returnValues df) = some (specVariance df) ∧
    0 ≤ specVariance df ∧
    ((if specVariance df > 1/2500 then "high" else "stable") = "high" ↔
       Real.sqrt (specVariance df) * 100 > 2) ∧
    generate_local_insight df ticker =
      ticker ++ " closed at $" ++ fmt2 (specLatestClose df) ++
      ", showing a " ++
      (if specDailyReturn df > 0 then "bullish" else "bearish") ++
      " move of " ++ fmt2 (specDailyReturn df) ++
      "%. Volatility remains " ++
      (if specVariance df > 1/2500 then "high" else "stable") ++ " (" ++
      fmtVol (some (specVariance df)) ++
      "%), with an average volume of " ++
      intComma (ratTrunc (mean (df.map ProcRow.Volume))) ++
      " shares. Market sentiment appears " ++
      (if specDailyReturn df > 0 then "bullish" else "bearish") ++
      " based on recent price action." := by
  have hlen : (df.map ProcRow.Close).length = df.length := List.length_map _ _
  have key : ∀ n, n < df.length →
      (df.map ProcRow.Close)[n]? = some ((df.map ProcRow.Close).getD n 0) := by
    intro n hn
    have hn' : n < (df.map ProcRow.Close).length := by rw [hlen]; exact hn
    rw [List.getElem?_eq_getElem hn', List.getD_eq_getElem?_getD,
      List.getElem?_eq_getElem hn']
    rfl
  have hsv : sampleVar (returnValues df) = some (specVariance df) := by
    rw [sampleVar, if_neg (by omega)]
    rfl
  have hv0 : 0 ≤ specVariance df := by
    have hnum : 0 ≤ ((returnValues df).map
        (fun x => (x - mean (returnValues df)) ^ 2)).sum := by
      apply List.sum_nonneg
      intro x hx
      obtain ⟨y, _, rfl⟩ := List.mem_map.mp hx
      positivity
    have hden : (0:ℚ) ≤ ((returnValues df).length : ℚ) - 1 := by
      have hc : (2:ℚ) ≤ ((returnValues df).length : ℚ) := by exact_mod_cast hvn
      linarith
    exact div_nonneg hnum hden
  refine ⟨?_, ?_, hsv, hv0, ?_, ?_⟩
  · rw [specLatestClose]
    exact key _ (by omega)
  · rw [specPrevClose]
    exact key _ (by omega)
  · by_cases hc : specVariance df > 1/2500
    · rw [if_pos hc]
      refine ⟨fun _ => ?_, fun _ => rfl⟩
      have hlt : (1/50 : ℝ) < Real.sqrt (specVariance df) := by
        rw [Real.lt_sqrt (by norm_num)]
        have : ((1:ℚ)/2500 : ℝ) < ((specVariance df : ℚ) : ℝ) := by
          exact_mod_cast hc
        nlinarith
      linarith
    · rw [if_neg hc]
      constructor
      · intro h
        exact absurd h (by decide)
      · intro h
        exfalso
        push_neg at hc
        have hle : Real.sqrt (specVariance df) ≤ 1/50 := by
          have h1 : ((specVariance df : ℚ) : ℝ) ≤ ((1:ℚ)/2500 : ℝ) := by
            exact_mod_cast hc
          have h2 : Real.sqrt (specVariance df) ≤ Real.sqrt ((1:ℚ)/2500 : ℝ) :=
            Real.sqrt_le_sqrt h1
          have h3 : Real.sqrt ((1:ℚ)/2500 : ℝ) = 1/50 := by
            rw [show ((1:ℚ)/2500 : ℝ) = (1/50 : ℝ)^2 by norm_num,
              Real.sqrt_sq (by norm_num)]
          rw [h3] at h2
          exact h2
        linarith
  · have hne : ¬ df.isEmpty = true := by
      cases df with
      | nil => simp at h2
      | cons a l => simp
    have hlatest : (df.map ProcRow.Close).getLastD 0 = specLatestClose df := by
      rw [List.getLastD_eq_getLast?, List.getLast?_eq_getElem?, List.length_map,
        ← List.getD_eq_getElem?_getD]
      rfl
    have hprev : (if df.length > 1
        then (df.map ProcRow.Close).getD (df.length - 2) 0
        else specLatestClose df) = specPrevClose df := by
      rw [if_pos (by omega)]
      rfl
    unfold generate_local_insight
    rw [if_neg hne]
    simp only [hsv, hlatest, hprev]
    rfl

/-- Concrete processed series for the C8 witness: closes 10, 20, 25 with
their true returns and volumes 1000, 2000, 1500. -/
def sampleProcessed3 : List ProcRow :=
  [ProcRow.mk 1 1 1 10 1000 none,
   ProcRow.mk 1 1 1 20 2000 (some 1),
   ProcRow.mk 1 1 1 25 1500 (some (1/4))]

/-- C8 witness: the template theorem applied to the three-row series. -/
theorem C8_witness :
    (sampleProcessed3.map ProcRow.Close)[sampleProcessed3.length - 1]? =
      some (specLatestClose sampleProcessed3) ∧
    (sampleProcessed3.map ProcRow.Close)[sampleProcessed3.length - 2]? =
      some (specPrevClose sampleProcessed3) ∧
    sampleVar (returnValues sampleProcessed3) =
      some (specVariance sampleProcessed3) ∧
    0 ≤ specVariance sampleProcessed3 ∧
    ((if specVariance sampleProcessed3 > 1/2500 then "high" else "stable") =
        "high" ↔ Real.sqrt (specVariance sampleProcessed3) * 100 > 2) ∧
    generate_local_insight sampleProcessed3 "AAPL" =
      "AAPL" ++ " closed at $" ++ fmt2 (specLatestClose sampleProcessed3) ++
      ", showing a " ++
      (if specDailyReturn sampleProcessed3 > 0 then "bullish" else "bearish") ++
      " move of " ++ fmt2 (specDailyReturn sampleProcessed3) ++
      "%. Volatility remains " ++
      (if specVariance sampleProcessed3 > 1/2500 then "high" else "stable") ++
      " (" ++ fmtVol (some (specVariance sampleProcessed3)) ++
      "%), with an average volume of " ++
      intComma (ratTrunc (mean (sampleProcessed3.map ProcRow.Volume))) ++
      " shares. Market sentiment appears " ++
      (if specDailyReturn sampleProcessed3 > 0 then "bullish" else "bearish") ++
      " based on recent price action." :=
  C8_local_insight_template sampleProcessed3 "AAPL"
    (by simp [sampleProcessed3])
    (by simp [returnValues, sampleProcessed3])

end Finsight
